import Mathlib

/-!
Verification of the solana-security-patterns repository.

Each on-chain program of the repository is shallowly embedded: the flat
account records become Lean structures, u64 / u16 / u8 machine integers
become Nat with explicit wrapping modulo 2^64 exactly where the Rust code
uses wrapping arithmetic, the checked_add / checked_sub / checked_mul /
checked_div combinators become Option-valued functions, and each
instruction handler becomes a function from its account state (plus the
list of transaction-signer keys where Anchor constraints are involved) to
a pair of an Outcome (success, program error, Rust panic, or
framework-level abort) and the in-memory account state left behind by the
handler body.  Anchor account constraints (has_one, Signer) are embedded
as explicit checks performed before the handler body runs, in the order
the accounts are declared.

Source files embedded:
  programs/01_missing_account_validation/src/lib.rs   (namespace P01)
  programs/02_missing_authority_check/src/lib.rs      (namespace P02)
  programs/03_incorrect_pda_derivation/src/lib.rs     (namespace P03)
  programs/04_unsafe_cpi_token_transfer/src/lib.rs    (namespace P04)
  programs/05_integer_overflow_state_bug/src/lib.rs   (namespace P05)
-/

namespace SolanaPatterns

/-- Pubkeys are opaque 32-byte identifiers; only equality is ever used by
the programs, so they are modelled as natural numbers. -/
abbrev Pubkey := Nat

/-- 2^64, the modulus of u64 arithmetic. -/
def U64_MOD : Nat := 2 ^ 64

/-- 2^128, the modulus of u128 arithmetic. -/
def U128_MOD : Nat := 2 ^ 128

/-- Rust u64::checked_add on values below 2^64. -/
def u64_checked_add (a b : Nat) : Option Nat :=
  if a + b < U64_MOD then some (a + b) else none

/-- Rust u64::checked_sub. -/
def u64_checked_sub (a b : Nat) : Option Nat :=
  if b ≤ a then some (a - b) else none

/-- Rust u64::checked_mul on values below 2^64. -/
def u64_checked_mul (a b : Nat) : Option Nat :=
  if a * b < U64_MOD then some (a * b) else none

/-- Rust u128::checked_mul on values below 2^128. -/
def u128_checked_mul (a b : Nat) : Option Nat :=
  if a * b < U128_MOD then some (a * b) else none

/-- Rust u128::checked_div: None exactly on division by zero. -/
def u128_checked_div (a b : Nat) : Option Nat :=
  if b = 0 then none else some (a / b)

/-- Unchecked u64 addition in release mode: wraps modulo 2^64. -/
def u64_wrap_add (a b : Nat) : Nat := (a + b) % U64_MOD

/-- Unchecked u64 subtraction in release mode: wraps modulo 2^64
(inputs are u64 values, i.e. below 2^64). -/
def u64_wrap_sub (a b : Nat) : Nat := (a + U64_MOD - b % U64_MOD) % U64_MOD

/-- Unchecked u64 multiplication in release mode: wraps modulo 2^64. -/
def u64_wrap_mul (a b : Nat) : Nat := (a * b) % U64_MOD

/-- Rust i64::checked_sub: None when the difference leaves the i64
range. -/
def i64_checked_sub (a b : Int) : Option Int :=
  if -(2 ^ 63) ≤ a - b ∧ a - b < 2 ^ 63 then some (a - b) else none

/-- Unchecked i64 subtraction in release mode: wraps into the signed
64-bit range. -/
def i64_wrap_sub (a b : Int) : Int := (a - b + 2 ^ 63) % 2 ^ 64 - 2 ^ 63

/-- An i64 value reinterpreted as u64 (Rust `as u64` on a signed
value): the two's-complement bit pattern, i.e. the value modulo 2^64. -/
def i64_as_u64 (t : Int) : Nat := (t % (2 ^ 64 : Int)).toNat

/-- An i64 value sign-extended and reinterpreted as u128 (Rust
`as u128`): the value modulo 2^128. -/
def i64_as_u128 (t : Int) : Nat := (t % (2 ^ 128 : Int)).toNat

/-- Outcome of running one instruction: Ok(()), a program error returned
with ?/require!, a Rust panic (Option::unwrap on None), or a
framework-level abort (missing signature, failed system-program CPI). -/
inductive Outcome (E : Type) where
  | ok : Outcome E
  | err : E → Outcome E
  | panicked : Outcome E
  | frameworkErr : Outcome E
deriving DecidableEq, Repr

/-- Solana persistence semantics: an instruction that does not return
Ok has all of its account writes rolled back by the runtime. -/
def commit {E S : Type} (pre : S) (r : Outcome E × S) : S :=
  match r.fst with
  | Outcome.ok => r.snd
  | _ => pre

/-! ## Program 01: missing_account_validation -/

namespace P01

/-- Account record Vault (owner: Pubkey, balance: u64, bump: u8). -/
structure Vault where
  owner : Pubkey
  balance : Nat
  bump : Nat
deriving DecidableEq, Repr

inductive VaultError where
  | UnauthorizedWithdrawal
  | InsufficientFunds
  | InvalidVaultData
deriving DecidableEq, Repr

/-- Accounts touched by the deposit instruction: the Vault record, the
lamport balances of the depositing owner and of the vault PDA. -/
structure DepositAccounts where
  vault : Vault
  owner_lamports : Nat
  vault_pda_lamports : Nat
deriving DecidableEq, Repr

/-- Handler `deposit` (lib.rs lines 37-58): a system-program CPI moves
`amount` lamports from owner to vault_pda (failing if the owner cannot
pay), then `vault.balance = vault.balance.checked_add(amount).unwrap()`
(the unwrap panics on overflow). -/
def deposit (a : DepositAccounts) (amount : Nat) : Outcome VaultError × DepositAccounts :=
  if a.owner_lamports < amount then (Outcome.frameworkErr, a)
  else
    let a1 : DepositAccounts :=
      { a with
        owner_lamports := a.owner_lamports - amount,
        vault_pda_lamports := u64_wrap_add a.vault_pda_lamports amount }
    match u64_checked_add a1.vault.balance amount with
    | none => (Outcome.panicked, a1)
    | some b => (Outcome.ok, { a1 with vault := { a1.vault with balance := b } })

/-- Accounts of the SecureWithdraw context (lib.rs lines 262-292):
`vault` (data record), `vault_pda` lamports, `owner` - a plain
AccountInfo that is NOT a signer, `withdrawer` - the mutable Signer that
receives the lamports. -/
structure SecureWithdrawAccounts where
  vault : Vault
  vault_pda_lamports : Nat
  owner : Pubkey
  withdrawer : Pubkey
  withdrawer_lamports : Nat
deriving DecidableEq, Repr

/-- Instruction `secure_withdraw` (lib.rs lines 132-155) together with
the Anchor constraints of SecureWithdraw: the `has_one = owner`
constraint on `vault` compares `vault.owner` with the key of the
`owner` account (declared error UnauthorizedWithdrawal), and
`withdrawer` must be a transaction signer.  The body then requires
`vault.balance >= amount`, performs
`vault.balance.checked_sub(amount).unwrap()`, and moves `amount`
lamports from the vault PDA to the withdrawer (unchecked u64 ops). -/
def secure_withdraw (a : SecureWithdrawAccounts) (signers : List Pubkey) (amount : Nat) :
    Outcome VaultError × SecureWithdrawAccounts :=
  if a.vault.owner = a.owner then
    if signers.contains a.withdrawer then
      if a.vault.balance < amount then (Outcome.err VaultError.InsufficientFunds, a)
      else
        match u64_checked_sub a.vault.balance amount with
        | none => (Outcome.panicked, a)
        | some b =>
          (Outcome.ok,
            { a with
              vault := { a.vault with balance := b },
              vault_pda_lamports := u64_wrap_sub a.vault_pda_lamports amount,
              withdrawer_lamports := u64_wrap_add a.withdrawer_lamports amount })
    else (Outcome.frameworkErr, a)
  else (Outcome.err VaultError.UnauthorizedWithdrawal, a)

/-- Accounts of the VulnerableWithdraw context (lib.rs lines 215-234):
`vault` is a raw AccountInfo whose bytes the handler deserializes
manually without any ownership or discriminator check, so the record is
whatever the caller supplied; plus the unverified vault_pda lamports
and the signing withdrawer. -/
structure VulnerableWithdrawAccounts where
  vault : Vault
  vault_pda_lamports : Nat
  withdrawer : Pubkey
  withdrawer_lamports : Nat
deriving DecidableEq, Repr

/-- Handler `vulnerable_withdraw` (lib.rs lines 82-112) with the signer
requirement of its context: requires `vault.owner ==
withdrawer.key()` (error UnauthorizedWithdrawal) and `vault.balance >=
amount` (error InsufficientFunds) on the attacker-supplied record, then
moves `amount` lamports from vault_pda to the withdrawer with
unchecked u64 operations. -/
def vulnerable_withdraw (a : VulnerableWithdrawAccounts) (signers : List Pubkey)
    (amount : Nat) : Outcome VaultError × VulnerableWithdrawAccounts :=
  if signers.contains a.withdrawer then
    if a.vault.owner = a.withdrawer then
      if a.vault.balance < amount then (Outcome.err VaultError.InsufficientFunds, a)
      else
        (Outcome.ok,
          { a with
            vault_pda_lamports := u64_wrap_sub a.vault_pda_lamports amount,
            withdrawer_lamports := u64_wrap_add a.withdrawer_lamports amount })
    else (Outcome.err VaultError.UnauthorizedWithdrawal, a)
  else (Outcome.frameworkErr, a)

end P01

/-! ## Program 02: missing_authority_check -/

namespace P02

/-- Account record Config (admin, pending_admin: Option, fee_bps: u16,
max_deposit: u64, is_paused: bool, bump: u8). -/
structure Config where
  admin : Pubkey
  pending_admin : Option Pubkey
  fee_bps : Nat
  max_deposit : Nat
  is_paused : Bool
  bump : Nat
deriving DecidableEq, Repr

inductive ConfigError where
  | Unauthorized
  | FeeTooHigh
  | NoPendingAdmin
  | NotPendingAdmin
deriving DecidableEq, Repr

/-- Handler `vulnerable_update_fee` body (lib.rs lines 60-82): requires
`config.admin == new_admin.key()` (where new_admin is NOT a signer),
then overwrites fee_bps. -/
def vulnerable_update_fee (config : Config) (new_admin : Pubkey) (new_fee_bps : Nat) :
    Outcome ConfigError × Config :=
  if config.admin = new_admin then (Outcome.ok, { config with fee_bps := new_fee_bps })
  else (Outcome.err ConfigError.Unauthorized, config)

/-- Handler `vulnerable_transfer_admin` body (lib.rs lines 95-109): no
authority check at all; overwrites config.admin with the argument. -/
def vulnerable_transfer_admin (config : Config) (new_admin : Pubkey) :
    Outcome ConfigError × Config :=
  (Outcome.ok, { config with admin := new_admin })

/-- Handler `secure_update_fee` body (lib.rs lines 121-137): requires
`new_fee_bps <= 1000` (error FeeTooHigh), then overwrites fee_bps. -/
def secure_update_fee (config : Config) (new_fee_bps : Nat) :
    Outcome ConfigError × Config :=
  if new_fee_bps ≤ 1000 then (Outcome.ok, { config with fee_bps := new_fee_bps })
  else (Outcome.err ConfigError.FeeTooHigh, config)

/-- Handler `secure_nominate_admin` body (lib.rs lines 152-161). -/
def secure_nominate_admin (config : Config) (new_admin : Pubkey) :
    Outcome ConfigError × Config :=
  (Outcome.ok, { config with pending_admin := some new_admin })

/-- Handler `secure_accept_admin` body (lib.rs lines 163-183): requires
pending_admin to be Some (error NoPendingAdmin), requires it to equal
the new_admin key (error NotPendingAdmin), then sets admin to the
new_admin key and clears pending_admin. -/
def secure_accept_admin (config : Config) (new_admin : Pubkey) :
    Outcome ConfigError × Config :=
  match config.pending_admin with
  | none => (Outcome.err ConfigError.NoPendingAdmin, config)
  | some p =>
    if p = new_admin then
      (Outcome.ok, { config with admin := new_admin, pending_admin := none })
    else (Outcome.err ConfigError.NotPendingAdmin, config)

/-- Handler `secure_pause` body (lib.rs lines 186-192). -/
def secure_pause (config : Config) (pause : Bool) : Outcome ConfigError × Config :=
  (Outcome.ok, { config with is_paused := pause })

/-- `secure_update_fee` with the SecureUpdateConfig constraints
(lib.rs lines 261-274): `has_one = admin @ Unauthorized` on config, and
`admin` must be a transaction signer. -/
def secure_update_fee_ix (config : Config) (admin : Pubkey) (signers : List Pubkey)
    (new_fee_bps : Nat) : Outcome ConfigError × Config :=
  if config.admin = admin then
    if signers.contains admin then secure_update_fee config new_fee_bps
    else (Outcome.frameworkErr, config)
  else (Outcome.err ConfigError.Unauthorized, config)

/-- `secure_pause` with the SecureUpdateConfig constraints. -/
def secure_pause_ix (config : Config) (admin : Pubkey) (signers : List Pubkey)
    (pause : Bool) : Outcome ConfigError × Config :=
  if config.admin = admin then
    if signers.contains admin then secure_pause config pause
    else (Outcome.frameworkErr, config)
  else (Outcome.err ConfigError.Unauthorized, config)

/-- `secure_nominate_admin` with the SecureNominateAdmin constraints
(lib.rs lines 276-288): `has_one = admin @ Unauthorized`, admin signs. -/
def secure_nominate_admin_ix (config : Config) (admin : Pubkey) (signers : List Pubkey)
    (new_admin : Pubkey) : Outcome ConfigError × Config :=
  if config.admin = admin then
    if signers.contains admin then secure_nominate_admin config new_admin
    else (Outcome.frameworkErr, config)
  else (Outcome.err ConfigError.Unauthorized, config)

/-- `secure_accept_admin` with the SecureAcceptAdmin constraints
(lib.rs lines 290-301): only the `new_admin` signer requirement. -/
def secure_accept_admin_ix (config : Config) (new_admin : Pubkey) (signers : List Pubkey) :
    Outcome ConfigError × Config :=
  if signers.contains new_admin then secure_accept_admin config new_admin
  else (Outcome.frameworkErr, config)

/-- `vulnerable_update_fee` with the VulnerableUpdateConfig constraints
(lib.rs lines 220-240): new_admin is a bare AccountInfo (no signature
required); only `caller` must sign. -/
def vulnerable_update_fee_ix (config : Config) (new_admin caller : Pubkey)
    (signers : List Pubkey) (new_fee_bps : Nat) : Outcome ConfigError × Config :=
  if signers.contains caller then vulnerable_update_fee config new_admin new_fee_bps
  else (Outcome.frameworkErr, config)

/-- `vulnerable_transfer_admin` with the VulnerableTransferAdmin
constraints (lib.rs lines 242-255): only `caller` must sign; caller is
never compared with config.admin. -/
def vulnerable_transfer_admin_ix (config : Config) (caller : Pubkey)
    (signers : List Pubkey) (new_admin : Pubkey) : Outcome ConfigError × Config :=
  if signers.contains caller then vulnerable_transfer_admin config new_admin
  else (Outcome.frameworkErr, config)

end P02

/-! ## Declared field types of every account record

The `#[account]` records of the five programs, as an explicit inventory
of (field name, declared field type).  Rust types are mapped one-to-one:
Pubkey, u8/u16/u64/i64/bool, Option<Pubkey>, and String with the
`#[max_len(n)]` attribute. -/

/-- The declared type of one account-record field. -/
inductive FieldTy where
  | u8 : FieldTy
  | u16 : FieldTy
  | u64 : FieldTy
  | i64 : FieldTy
  | bool : FieldTy
  | pubkey : FieldTy
  | optionPubkey : FieldTy
  | string : Nat → FieldTy
deriving DecidableEq, Repr

/-- A fixed-width scalar (u8/u16/u64/i64/bool) or a fixed-length key
(Pubkey).  Option<Pubkey> (borsh: 1 or 33 bytes) and length-prefixed
String are neither. -/
def isFixedScalarOrKey : FieldTy → Bool
  | FieldTy.u8 => true
  | FieldTy.u16 => true
  | FieldTy.u64 => true
  | FieldTy.i64 => true
  | FieldTy.bool => true
  | FieldTy.pubkey => true
  | FieldTy.optionPubkey => false
  | FieldTy.string _ => false

namespace P01

/-- Fields of Vault (01 lib.rs lines 298-307). -/
def Vault_fields : List (String × FieldTy) :=
  [("owner", FieldTy.pubkey), ("balance", FieldTy.u64), ("bump", FieldTy.u8)]

end P01

namespace P02

/-- Fields of Config (02 lib.rs lines 307-322). -/
def Config_fields : List (String × FieldTy) :=
  [("admin", FieldTy.pubkey), ("pending_admin", FieldTy.optionPubkey),
   ("fee_bps", FieldTy.u16), ("max_deposit", FieldTy.u64),
   ("is_paused", FieldTy.bool), ("bump", FieldTy.u8)]

end P02

namespace P03

/-- Fields of Profile (03 lib.rs lines 371-380); username is a String
with `#[max_len(32)]`. -/
def Profile_fields : List (String × FieldTy) :=
  [("authority", FieldTy.pubkey), ("username", FieldTy.string 32),
   ("reputation", FieldTy.u64), ("created_at", FieldTy.i64), ("bump", FieldTy.u8)]

/-- Fields of Pool (03 lib.rs lines 382-391); pool_name is a String
with `#[max_len(32)]`. -/
def Pool_fields : List (String × FieldTy) :=
  [("authority", FieldTy.pubkey), ("pool_name", FieldTy.string 32),
   ("total_deposits", FieldTy.u64), ("is_active", FieldTy.bool), ("bump", FieldTy.u8)]

/-- Fields of Escrow (03 lib.rs lines 393-401). -/
def Escrow_fields : List (String × FieldTy) :=
  [("creator", FieldTy.pubkey), ("recipient", FieldTy.pubkey),
   ("amount", FieldTy.u64), ("escrow_id", FieldTy.u64), ("bump", FieldTy.u8)]

end P03

/-! ## Program 04: unsafe_cpi_token_transfer -/

namespace P04

/-- Account record Splitter (04 lib.rs lines 375-383). -/
structure Splitter where
  authority : Pubkey
  treasury : Pubkey
  recipient : Pubkey
  recipient_share_bps : Nat
  bump : Nat
deriving DecidableEq, Repr

inductive SplitterError where
  | InvalidShare
  | InvalidSourceOwner
  | InvalidRecipient
  | InvalidTreasury
  | MintMismatch
  | InvalidTokenProgram
deriving DecidableEq, Repr

/-- Fields of Splitter. -/
def Splitter_fields : List (String × FieldTy) :=
  [("authority", FieldTy.pubkey), ("treasury", FieldTy.pubkey),
   ("recipient", FieldTy.pubkey), ("recipient_share_bps", FieldTy.u16),
   ("bump", FieldTy.u8)]

/-- Handler `initialize_splitter` (04 lib.rs lines 27-45): requires
`recipient_share_bps <= 10000` (error InvalidShare), then fills in the
freshly created Splitter record. -/
def initialize_splitter (authority treasury recipient : Pubkey)
    (recipient_share_bps bump : Nat) : Outcome SplitterError × Option Splitter :=
  if recipient_share_bps ≤ 10000 then
    (Outcome.ok, some
      { authority := authority, treasury := treasury, recipient := recipient,
        recipient_share_bps := recipient_share_bps, bump := bump })
  else (Outcome.err SplitterError.InvalidShare, none)

/-- The split arithmetic appearing verbatim in both
`vulnerable_split_payment` (04 lib.rs lines 66-119) and
`secure_split_payment` (04 lib.rs lines 182-231):
`recipient_amount = ((amount as u128).checked_mul(bps).unwrap()
 .checked_div(10000).unwrap()) as u64` and
`treasury_amount = amount.checked_sub(recipient_amount).unwrap()`.
The three unwraps are modelled by the Option result (none = panic);
the `as u64` cast truncates modulo 2^64. -/
def split_payment_amounts (amount recipient_share_bps : Nat) : Option (Nat × Nat) :=
  match u128_checked_mul amount recipient_share_bps with
  | none => none
  | some p =>
    match u128_checked_div p 10000 with
    | none => none
    | some q =>
      let recipient_amount := q % U64_MOD
      match u64_checked_sub amount recipient_amount with
      | none => none
      | some treasury_amount => some (recipient_amount, treasury_amount)

end P04

/-! ## Program 05: integer_overflow_state_bug -/

namespace P05

/-- Account record Pool (05 lib.rs lines 409-418). -/
structure Pool where
  authority : Pubkey
  total_staked : Nat
  reward_rate : Nat
  last_update_time : Int
  accumulated_reward_per_share : Nat
  bump : Nat
deriving DecidableEq, Repr

/-- Account record Stake (05 lib.rs lines 420-429). -/
structure Stake where
  owner : Pubkey
  pool : Pubkey
  amount : Nat
  reward_debt : Nat
  pending_rewards : Nat
  bump : Nat
deriving DecidableEq, Repr

inductive PoolError where
  | ArithmeticOverflow
  | ArithmeticUnderflow
  | DivisionByZero
  | InsufficientBalance
  | StakeTooLarge
  | InvalidMultiplier
deriving DecidableEq, Repr

/-- Fields of Pool (program 05). -/
def Pool_fields : List (String × FieldTy) :=
  [("authority", FieldTy.pubkey), ("total_staked", FieldTy.u64),
   ("reward_rate", FieldTy.u64), ("last_update_time", FieldTy.i64),
   ("accumulated_reward_per_share", FieldTy.u64), ("bump", FieldTy.u8)]

/-- Fields of Stake (program 05). -/
def Stake_fields : List (String × FieldTy) :=
  [("owner", FieldTy.pubkey), ("pool", FieldTy.pubkey), ("amount", FieldTy.u64),
   ("reward_debt", FieldTy.u64), ("pending_rewards", FieldTy.u64),
   ("bump", FieldTy.u8)]

/-- The pair of mutable accounts every staking instruction operates on. -/
structure StakeState where
  pool : Pool
  stake : Stake
deriving DecidableEq, Repr

/-- Handler `vulnerable_deposit` (05 lib.rs lines 68-81): plain `+` on
both pool.total_staked and stake.amount, wrapping modulo 2^64 in
release builds. -/
def vulnerable_deposit (st : StakeState) (amount : Nat) : Outcome PoolError × StakeState :=
  (Outcome.ok,
    { st with
      pool := { st.pool with total_staked := u64_wrap_add st.pool.total_staked amount },
      stake := { st.stake with amount := u64_wrap_add st.stake.amount amount } })

/-- Handler `vulnerable_withdraw` (05 lib.rs lines 95-109): plain `-` on
both fields with no balance check, wrapping below zero. -/
def vulnerable_withdraw (st : StakeState) (amount : Nat) : Outcome PoolError × StakeState :=
  (Outcome.ok,
    { st with
      pool := { st.pool with total_staked := u64_wrap_sub st.pool.total_staked amount },
      stake := { st.stake with amount := u64_wrap_sub st.stake.amount amount } })

/-- Handler `vulnerable_compound` (05 lib.rs lines 147-160): computes
`new_amount = stake.amount * multiplier` (wrapping), assigns it to
stake.amount, and only AFTER the assignment requires
`stake.amount <= 1_000_000_000` (error StakeTooLarge). -/
def vulnerable_compound (st : StakeState) (multiplier : Nat) :
    Outcome PoolError × StakeState :=
  let new_amount := u64_wrap_mul st.stake.amount multiplier
  let st1 : StakeState := { st with stake := { st.stake with amount := new_amount } }
  if new_amount ≤ 1000000000 then (Outcome.ok, st1)
  else (Outcome.err PoolError.StakeTooLarge, st1)

/-- Handler `secure_deposit` (05 lib.rs lines 172-187):
`pool.total_staked.checked_add(amount).ok_or(ArithmeticOverflow)?` then
`stake.amount.checked_add(amount).ok_or(ArithmeticOverflow)?`, in that
order. -/
def secure_deposit (st : StakeState) (amount : Nat) : Outcome PoolError × StakeState :=
  match u64_checked_add st.pool.total_staked amount with
  | none => (Outcome.err PoolError.ArithmeticOverflow, st)
  | some t =>
    let st1 : StakeState := { st with pool := { st.pool with total_staked := t } }
    match u64_checked_add st1.stake.amount amount with
    | none => (Outcome.err PoolError.ArithmeticOverflow, st1)
    | some a =>
      (Outcome.ok, { st1 with stake := { st1.stake with amount := a } })

/-- Handler `secure_withdraw` (05 lib.rs lines 195-213): requires
`stake.amount >= amount` (error InsufficientBalance), then
`stake.amount.checked_sub(amount).ok_or(ArithmeticUnderflow)?` and
`pool.total_staked.checked_sub(amount).ok_or(ArithmeticUnderflow)?`. -/
def secure_withdraw (st : StakeState) (amount : Nat) : Outcome PoolError × StakeState :=
  if st.stake.amount < amount then (Outcome.err PoolError.InsufficientBalance, st)
  else
    match u64_checked_sub st.stake.amount amount with
    | none => (Outcome.err PoolError.ArithmeticUnderflow, st)
    | some a =>
      let st1 : StakeState := { st with stake := { st.stake with amount := a } }
      match u64_checked_sub st1.pool.total_staked amount with
      | none => (Outcome.err PoolError.ArithmeticUnderflow, st1)
      | some t =>
        (Outcome.ok, { st1 with pool := { st1.pool with total_staked := t } })

/-- Handler `secure_compound` (05 lib.rs lines 263-282): requires
`multiplier > 0 && multiplier <= 10` (error InvalidMultiplier), then
`stake.amount.checked_mul(multiplier).ok_or(ArithmeticOverflow)?`,
requires the result `<= 1_000_000_000` (error StakeTooLarge), and only
then assigns stake.amount. -/
def secure_compound (st : StakeState) (multiplier : Nat) :
    Outcome PoolError × StakeState :=
  if 0 < multiplier ∧ multiplier ≤ 10 then
    match u64_checked_mul st.stake.amount multiplier with
    | none => (Outcome.err PoolError.ArithmeticOverflow, st)
    | some new_amount =>
      if new_amount ≤ 1000000000 then
        (Outcome.ok, { st with stake := { st.stake with amount := new_amount } })
      else (Outcome.err PoolError.StakeTooLarge, st)
  else (Outcome.err PoolError.InvalidMultiplier, st)

/-- Handler `vulnerable_claim_rewards` (05 lib.rs lines 118-140), with
the clock value passed in: `time_elapsed = now - pool.last_update_time`
(unchecked i64 subtraction), `reward_per_share = (pool.reward_rate /
pool.total_staked.max(1)) * time_elapsed as u64` (u64 division before
multiplication, wrapping), `pending = stake.amount * reward_per_share`
(wrapping), then `stake.pending_rewards = stake.pending_rewards +
pending` (wrapping).  The body has no error path. -/
def vulnerable_claim_rewards (st : StakeState) (now : Int) :
    Outcome PoolError × StakeState :=
  let time_elapsed := i64_wrap_sub now st.pool.last_update_time
  let reward_per_share :=
    u64_wrap_mul (st.pool.reward_rate / max st.pool.total_staked 1)
      (i64_as_u64 time_elapsed)
  let pending := u64_wrap_mul st.stake.amount reward_per_share
  (Outcome.ok,
    { st with
      stake := { st.stake with
        pending_rewards := u64_wrap_add st.stake.pending_rewards pending } })

/-- Handler `secure_claim_rewards` (05 lib.rs lines 221-255), with the
clock value passed in: i64 checked_sub for the elapsed time (err
ArithmeticUnderflow), u128 intermediates reward_rate * time *
staked_amount / total_staked.max(1) with checked mul/mul/div (err
ArithmeticOverflow / DivisionByZero), a range check
`pending <= u64::MAX` (err ArithmeticOverflow) before the `as u64`
cast, and finally `stake.pending_rewards.checked_add(pending_u64)`
(err ArithmeticOverflow).  The only state write is that last
assignment, after every fallible step. -/
def secure_claim_rewards (st : StakeState) (now : Int) :
    Outcome PoolError × StakeState :=
  match i64_checked_sub now st.pool.last_update_time with
  | none => (Outcome.err PoolError.ArithmeticUnderflow, st)
  | some time_elapsed =>
    let total_staked := max st.pool.total_staked 1
    let time := i64_as_u128 time_elapsed
    match u128_checked_mul st.pool.reward_rate time with
    | none => (Outcome.err PoolError.ArithmeticOverflow, st)
    | some p1 =>
      match u128_checked_mul p1 st.stake.amount with
      | none => (Outcome.err PoolError.ArithmeticOverflow, st)
      | some p2 =>
        match u128_checked_div p2 total_staked with
        | none => (Outcome.err PoolError.DivisionByZero, st)
        | some pending =>
          if pending ≤ U64_MOD - 1 then
            let pending_u64 := pending % U64_MOD
            match u64_checked_add st.stake.pending_rewards pending_u64 with
            | none => (Outcome.err PoolError.ArithmeticOverflow, st)
            | some pr =>
              (Outcome.ok,
                { st with stake := { st.stake with pending_rewards := pr } })
          else (Outcome.err PoolError.ArithmeticOverflow, st)

/-- Handler `update_pool` (05 lib.rs lines 285-313), with the clock
value passed in: when total_staked = 0 it only stamps
last_update_time and succeeds; otherwise it computes the elapsed time
(i64 checked_sub, err ArithmeticUnderflow, then cast to u128),
reward = reward_rate * elapsed * 10^12 / total_staked with u128
checked ops (err ArithmeticOverflow / DivisionByZero), truncates the
reward to u64 (`reward as u64`), and checked_adds it into
accumulated_reward_per_share (err ArithmeticOverflow) before stamping
last_update_time.  Every error occurs before the first state write. -/
def update_pool (pool : Pool) (now : Int) : Outcome PoolError × Pool :=
  if pool.total_staked = 0 then
    (Outcome.ok, { pool with last_update_time := now })
  else
    match i64_checked_sub now pool.last_update_time with
    | none => (Outcome.err PoolError.ArithmeticUnderflow, pool)
    | some te =>
      let time_elapsed := i64_as_u128 te
      match u128_checked_mul pool.reward_rate time_elapsed with
      | none => (Outcome.err PoolError.ArithmeticOverflow, pool)
      | some p1 =>
        match u128_checked_mul p1 1000000000000 with
        | none => (Outcome.err PoolError.ArithmeticOverflow, pool)
        | some p2 =>
          match u128_checked_div p2 pool.total_staked with
          | none => (Outcome.err PoolError.DivisionByZero, pool)
          | some reward =>
            match u64_checked_add pool.accumulated_reward_per_share (reward % U64_MOD) with
            | none => (Outcome.err PoolError.ArithmeticOverflow, pool)
            | some acc =>
              (Outcome.ok,
                { pool with
                  accumulated_reward_per_share := acc,
                  last_update_time := now })

end P05

/-- All account records of the repository with their declared fields. -/
def all_account_records : List (String × List (String × FieldTy)) :=
  [("01::Vault", P01.Vault_fields),
   ("02::Config", P02.Config_fields),
   ("03::Profile", P03.Profile_fields),
   ("03::Pool", P03.Pool_fields),
   ("03::Escrow", P03.Escrow_fields),
   ("04::Splitter", P04.Splitter_fields),
   ("05::Pool", P05.Pool_fields),
   ("05::Stake", P05.Stake_fields)]

/-! ## Arithmetic helper lemmas -/

theorem u64_checked_add_eq_some {a b : Nat} (h : a + b < U64_MOD) :
    u64_checked_add a b = some (a + b) := by
  unfold u64_checked_add; rw [if_pos h]

theorem u64_checked_add_eq_none {a b : Nat} (h : U64_MOD ≤ a + b) :
    u64_checked_add a b = none := by
  unfold u64_checked_add; rw [if_neg (Nat.not_lt.mpr h)]

theorem u64_checked_sub_eq_some {a b : Nat} (h : b ≤ a) :
    u64_checked_sub a b = some (a - b) := by
  unfold u64_checked_sub; rw [if_pos h]

theorem u64_wrap_add_eq {a b : Nat} (h : a + b < U64_MOD) : u64_wrap_add a b = a + b :=
  Nat.mod_eq_of_lt h

/-! ## Claim theorems -/

/-- C1: the claim says secure_withdraw rejects whenever the withdrawer
(the signer receiving the lamports) is not the vault's recorded owner.
The code instead checks `has_one = owner` against the separate,
non-signing `owner` account: with vault.owner = 1, owner account key 1,
and signing withdrawer 2 ≠ 1, every constraint passes, the call
succeeds, and 60 lamports are paid to withdrawer 2. -/
theorem c1_secure_withdraw_pays_nonowner_withdrawer :
    P01.secure_withdraw
      { vault := { owner := 1, balance := 100, bump := 255 },
        vault_pda_lamports := 500, owner := 1, withdrawer := 2,
        withdrawer_lamports := 7 } [2] 60
      = (Outcome.ok,
        { vault := { owner := 1, balance := 40, bump := 255 },
          vault_pda_lamports := 440, owner := 1, withdrawer := 2,
          withdrawer_lamports := 67 }) ∧
    (2 : Pubkey) ≠ (1 : Pubkey) := by
  decide

/-- C2 counterexample: vulnerable_transfer_admin mutates the Config
account in a transaction whose only signer (key 2) is neither the
recorded admin before the call (key 1) nor after it (key 9), so a
config mutation succeeded without the recorded admin signing. -/
theorem c2_vulnerable_transfer_admin_mutates_without_admin_signature :
    P02.vulnerable_transfer_admin_ix
      { admin := 1, pending_admin := none, fee_bps := 100,
        max_deposit := 1000000000000, is_paused := false, bump := 255 } 2 [2] 9
      = (Outcome.ok,
        { admin := 9, pending_admin := none, fee_bps := 100,
          max_deposit := 1000000000000, is_paused := false, bump := 255 }) ∧
    ([2].contains (1 : Pubkey)) = false ∧
    ([2].contains (9 : Pubkey)) = false := by
  decide

/-- C3 counterexample: vulnerable_withdraw of program 05 accepts an
amount (200) greater than the recorded balances (100): the call
succeeds and both stake.amount and pool.total_staked wrap to
2^64 - 100, i.e. the balance goes below zero and wraps. -/
theorem c3_vulnerable_withdraw_wraps_below_zero :
    P05.vulnerable_withdraw
      { pool := { authority := 1, total_staked := 100, reward_rate := 0,
                  last_update_time := 0, accumulated_reward_per_share := 0, bump := 255 },
        stake := { owner := 2, pool := 3, amount := 100, reward_debt := 0,
                   pending_rewards := 0, bump := 254 } } 200
      = (Outcome.ok,
        { pool := { authority := 1, total_staked := 18446744073709551516,
                    reward_rate := 0, last_update_time := 0,
                    accumulated_reward_per_share := 0, bump := 255 },
          stake := { owner := 2, pool := 3, amount := 18446744073709551516,
                     reward_debt := 0, pending_rewards := 0, bump := 254 } }) := by
  decide

/-- C5 counterexample: vulnerable_compound multiplies stake.amount
before validating; at stake.amount = 200000000 and multiplier = 10 the
validation fails (StakeTooLarge) but the error is returned with
stake.amount already overwritten to 2000000000, so a partial mutation
survives the error path within the instruction body. -/
theorem c5_vulnerable_compound_partial_mutation_on_error :
    P05.vulnerable_compound
      { pool := { authority := 1, total_staked := 0, reward_rate := 0,
                  last_update_time := 0, accumulated_reward_per_share := 0, bump := 255 },
        stake := { owner := 2, pool := 3, amount := 200000000, reward_debt := 0,
                   pending_rewards := 0, bump := 254 } } 10
      = (Outcome.err P05.PoolError.StakeTooLarge,
        { pool := { authority := 1, total_staked := 0, reward_rate := 0,
                    last_update_time := 0, accumulated_reward_per_share := 0, bump := 255 },
          stake := { owner := 2, pool := 3, amount := 2000000000, reward_debt := 0,
                     pending_rewards := 0, bump := 254 } }) ∧
    (2000000000 : Nat) ≠ 200000000 := by
  decide

/-- C7 counterexample: not every field of every account record is a
fixed-width scalar or fixed-length key: Profile.username of program 03
is a length-prefixed String (declared max length 32), a variable-length
field. -/
theorem c7_username_field_is_variable_length :
    (all_account_records.all fun r => r.2.all fun f => isFixedScalarOrKey f.2) = false ∧
    ("username", FieldTy.string 32) ∈ P03.Profile_fields ∧
    isFixedScalarOrKey (FieldTy.string 32) = false := by
  decide

/-- C7 amended: every field of every account record is a fixed-width
scalar or a fixed-length key except exactly three fields:
Config.pending_admin (an optional key) and the two bounded Strings
Profile.username and Pool.pool_name of program 03. -/
theorem c7_field_inventory_amended :
    (all_account_records.map fun r =>
        (r.2.filter fun f => !(isFixedScalarOrKey f.2)).map fun f => (r.1, f.1)).flatten
      = [("02::Config", "pending_admin"), ("03::Profile", "username"),
         ("03::Pool", "pool_name")] := by
  decide

/-- C2 amended: whichever secure instruction mutates the Config account
(secure_update_fee, secure_pause, secure_nominate_admin, all running
under the has_one-admin plus admin-signer constraints), any observable
change to the config implies that the recorded admin key before the
call is among the transaction signers. -/
theorem c2_secure_config_mutation_requires_admin_signer :
    ∀ (config : P02.Config) (admin : Pubkey) (signers : List Pubkey)
      (new_fee_bps : Nat) (pause : Bool) (new_admin : Pubkey),
      ((P02.secure_update_fee_ix config admin signers new_fee_bps).snd ≠ config →
        config.admin ∈ signers) ∧
      ((P02.secure_pause_ix config admin signers pause).snd ≠ config →
        config.admin ∈ signers) ∧
      ((P02.secure_nominate_admin_ix config admin signers new_admin).snd ≠ config →
        config.admin ∈ signers) := by
  intro config admin signers new_fee_bps pause new_admin
  refine ⟨?_, ?_, ?_⟩
  · intro h
    by_cases hadm : config.admin = admin
    · by_cases hs : admin ∈ signers
      · rw [hadm]; exact hs
      · exfalso; apply h; simp [P02.secure_update_fee_ix, hadm, hs]
    · exfalso; apply h; simp [P02.secure_update_fee_ix, hadm]
  · intro h
    by_cases hadm : config.admin = admin
    · by_cases hs : admin ∈ signers
      · rw [hadm]; exact hs
      · exfalso; apply h; simp [P02.secure_pause_ix, hadm, hs]
    · exfalso; apply h; simp [P02.secure_pause_ix, hadm]
  · intro h
    by_cases hadm : config.admin = admin
    · by_cases hs : admin ∈ signers
      · rw [hadm]; exact hs
      · exfalso; apply h; simp [P02.secure_nominate_admin_ix, hadm, hs]
    · exfalso; apply h; simp [P02.secure_nominate_admin_ix, hadm]

/-- C2 witness: concrete run of the amended theorem. -/
theorem c2_witness :
    ({ admin := 1, pending_admin := none, fee_bps := 100,
       max_deposit := 1000000000000, is_paused := false,
       bump := 255 } : P02.Config).admin ∈ ([1] : List Pubkey) :=
  (c2_secure_config_mutation_requires_admin_signer
    { admin := 1, pending_admin := none, fee_bps := 100,
      max_deposit := 1000000000000, is_paused := false, bump := 255 }
    1 [1] 5 false 7).1 (by decide)

/-- C3 amended: the secure withdrawal instructions (program 01
secure_withdraw on vault.balance, program 05 secure_withdraw on
stake.amount and pool.total_staked) reject any amount greater than the
recorded value and, on success, decrease the recorded balances by
exactly the amount with no wrap-around; the vulnerable_withdraw of
program 05 instead wraps below zero. -/
theorem c3_secure_withdrawals_never_underflow :
    ∀ (a : P01.SecureWithdrawAccounts) (signers : List Pubkey) (amount : Nat)
      (st : P05.StakeState),
      (a.vault.balance < amount →
        (P01.secure_withdraw a signers amount).fst ≠ Outcome.ok) ∧
      ((P01.secure_withdraw a signers amount).fst = Outcome.ok →
        amount ≤ a.vault.balance ∧
        (P01.secure_withdraw a signers amount).snd.vault.balance
          = a.vault.balance - amount) ∧
      (st.stake.amount < amount →
        (P05.secure_withdraw st amount).fst
          = Outcome.err P05.PoolError.InsufficientBalance) ∧
      ((P05.secure_withdraw st amount).fst = Outcome.ok →
        amount ≤ st.stake.amount ∧ amount ≤ st.pool.total_staked ∧
        (P05.secure_withdraw st amount).snd.stake.amount
          = st.stake.amount - amount ∧
        (P05.secure_withdraw st amount).snd.pool.total_staked
          = st.pool.total_staked - amount) := by
  intro a signers amount st
  refine ⟨?_, ?_, ?_, ?_⟩
  · intro hlt
    by_cases h1 : a.vault.owner = a.owner
    · by_cases h2 : a.withdrawer ∈ signers
      · simp [P01.secure_withdraw, h1, h2, hlt]
      · simp [P01.secure_withdraw, h1, h2]
    · simp [P01.secure_withdraw, h1]
  · intro hok
    by_cases h1 : a.vault.owner = a.owner
    · by_cases h2 : a.withdrawer ∈ signers
      · by_cases h3 : a.vault.balance < amount
        · simp [P01.secure_withdraw, h1, h2, h3] at hok
        · have hle : amount ≤ a.vault.balance := Nat.le_of_not_lt h3
          refine ⟨hle, ?_⟩
          simp [P01.secure_withdraw, h1, h2, h3, u64_checked_sub_eq_some hle]
      · simp [P01.secure_withdraw, h1, h2] at hok
    · simp [P01.secure_withdraw, h1] at hok
  · intro hlt
    simp [P05.secure_withdraw, hlt]
  · intro hok
    by_cases h1 : st.stake.amount < amount
    · simp [P05.secure_withdraw, h1] at hok
    · have hle : amount ≤ st.stake.amount := Nat.le_of_not_lt h1
      by_cases h2 : amount ≤ st.pool.total_staked
      · refine ⟨hle, h2, ?_, ?_⟩
        · simp [P05.secure_withdraw, h1, u64_checked_sub_eq_some hle,
                u64_checked_sub_eq_some h2]
        · simp [P05.secure_withdraw, h1, u64_checked_sub_eq_some hle,
                u64_checked_sub_eq_some h2]
      · exfalso
        have hnone : u64_checked_sub st.pool.total_staked amount = none := by
          unfold u64_checked_sub; rw [if_neg h2]
        simp [P05.secure_withdraw, h1, u64_checked_sub_eq_some hle, hnone] at hok

/-- C3 witness: concrete successful secure withdrawals. -/
theorem c3_witness :
    (30 ≤ ({ vault := { owner := 1, balance := 100, bump := 255 },
             vault_pda_lamports := 500, owner := 1, withdrawer := 1,
             withdrawer_lamports := 7 } : P01.SecureWithdrawAccounts).vault.balance ∧
      (P01.secure_withdraw
        { vault := { owner := 1, balance := 100, bump := 255 },
          vault_pda_lamports := 500, owner := 1, withdrawer := 1,
          withdrawer_lamports := 7 } [1] 30).snd.vault.balance
        = ({ vault := { owner := 1, balance := 100, bump := 255 },
             vault_pda_lamports := 500, owner := 1, withdrawer := 1,
             withdrawer_lamports := 7 } : P01.SecureWithdrawAccounts).vault.balance - 30) ∧
    (30 ≤ ({ pool := { authority := 1, total_staked := 120, reward_rate := 0,
                       last_update_time := 0, accumulated_reward_per_share := 0,
                       bump := 255 },
             stake := { owner := 2, pool := 3, amount := 100, reward_debt := 0,
                        pending_rewards := 0,
                        bump := 254 } } : P05.StakeState).stake.amount ∧
      30 ≤ ({ pool := { authority := 1, total_staked := 120, reward_rate := 0,
                        last_update_time := 0, accumulated_reward_per_share := 0,
                        bump := 255 },
              stake := { owner := 2, pool := 3, amount := 100, reward_debt := 0,
                         pending_rewards := 0,
                         bump := 254 } } : P05.StakeState).pool.total_staked ∧
      (P05.secure_withdraw
        { pool := { authority := 1, total_staked := 120, reward_rate := 0,
                    last_update_time := 0, accumulated_reward_per_share := 0,
                    bump := 255 },
          stake := { owner := 2, pool := 3, amount := 100, reward_debt := 0,
                     pending_rewards := 0, bump := 254 } } 30).snd.stake.amount
        = ({ pool := { authority := 1, total_staked := 120, reward_rate := 0,
                       last_update_time := 0, accumulated_reward_per_share := 0,
                       bump := 255 },
             stake := { owner := 2, pool := 3, amount := 100, reward_debt := 0,
                        pending_rewards := 0,
                        bump := 254 } } : P05.StakeState).stake.amount - 30 ∧
      (P05.secure_withdraw
        { pool := { authority := 1, total_staked := 120, reward_rate := 0,
                    last_update_time := 0, accumulated_reward_per_share := 0,
                    bump := 255 },
          stake := { owner := 2, pool := 3, amount := 100, reward_debt := 0,
                     pending_rewards := 0, bump := 254 } } 30).snd.pool.total_staked
        = ({ pool := { authority := 1, total_staked := 120, reward_rate := 0,
                       last_update_time := 0, accumulated_reward_per_share := 0,
                       bump := 255 },
             stake := { owner := 2, pool := 3, amount := 100, reward_debt := 0,
                        pending_rewards := 0,
                        bump := 254 } } : P05.StakeState).pool.total_staked - 30) :=
  ⟨(c3_secure_withdrawals_never_underflow
      { vault := { owner := 1, balance := 100, bump := 255 },
        vault_pda_lamports := 500, owner := 1, withdrawer := 1,
        withdrawer_lamports := 7 } [1] 30
      { pool := { authority := 1, total_staked := 120, reward_rate := 0,
                  last_update_time := 0, accumulated_reward_per_share := 0,
                  bump := 255 },
        stake := { owner := 2, pool := 3, amount := 100, reward_debt := 0,
                   pending_rewards := 0, bump := 254 } }).2.1 (by decide),
   (c3_secure_withdrawals_never_underflow
      { vault := { owner := 1, balance := 100, bump := 255 },
        vault_pda_lamports := 500, owner := 1, withdrawer := 1,
        withdrawer_lamports := 7 } [1] 30
      { pool := { authority := 1, total_staked := 120, reward_rate := 0,
                  last_update_time := 0, accumulated_reward_per_share := 0,
                  bump := 255 },
        stake := { owner := 2, pool := 3, amount := 100, reward_debt := 0,
                   pending_rewards := 0, bump := 254 } }).2.2.2 (by decide)⟩

/-- C4: secure_deposit of program 05 returns ArithmeticOverflow whenever
pool.total_staked + amount or stake.amount + amount exceeds the u64
range, and deposit of program 01 fails (panics or aborts) rather than
wrapping when vault.balance + amount exceeds the u64 range, leaving the
recorded balance unwrapped. -/
theorem c4_secure_deposits_reject_overflow :
    (∀ (st : P05.StakeState) (amount : Nat),
      U64_MOD ≤ st.pool.total_staked + amount ∨ U64_MOD ≤ st.stake.amount + amount →
      (P05.secure_deposit st amount).fst
        = Outcome.err P05.PoolError.ArithmeticOverflow) ∧
    (∀ (a : P01.DepositAccounts) (amount : Nat),
      U64_MOD ≤ a.vault.balance + amount →
      (P01.deposit a amount).fst ≠ Outcome.ok ∧
      (P01.deposit a amount).snd.vault.balance = a.vault.balance) := by
  constructor
  · intro st amount h
    by_cases hp : st.pool.total_staked + amount < U64_MOD
    · have hs : U64_MOD ≤ st.stake.amount + amount := by
        rcases h with h | h
        · omega
        · exact h
      simp [P05.secure_deposit, u64_checked_add_eq_some hp, u64_checked_add_eq_none hs]
    · have hp2 : U64_MOD ≤ st.pool.total_staked + amount := Nat.le_of_not_lt hp
      simp [P05.secure_deposit, u64_checked_add_eq_none hp2]
  · intro a amount h
    by_cases hl : a.owner_lamports < amount
    · constructor
      · simp [P01.deposit, hl]
      · simp [P01.deposit, hl]
    · constructor
      · simp [P01.deposit, hl, u64_checked_add_eq_none h]
      · simp [P01.deposit, hl, u64_checked_add_eq_none h]

/-- C4 witness: concrete overflowing deposits. -/
theorem c4_witness :
    ((P05.secure_deposit
        { pool := { authority := 1, total_staked := 18446744073709551615,
                    reward_rate := 0, last_update_time := 0,
                    accumulated_reward_per_share := 0, bump := 255 },
          stake := { owner := 2, pool := 3, amount := 0, reward_debt := 0,
                     pending_rewards := 0, bump := 254 } } 5).fst
      = Outcome.err P05.PoolError.ArithmeticOverflow) ∧
    ((P01.deposit
        { vault := { owner := 1, balance := 18446744073709551615, bump := 255 },
          owner_lamports := 10, vault_pda_lamports := 0 } 5).fst ≠ Outcome.ok ∧
      (P01.deposit
        { vault := { owner := 1, balance := 18446744073709551615, bump := 255 },
          owner_lamports := 10, vault_pda_lamports := 0 } 5).snd.vault.balance
        = ({ vault := { owner := 1, balance := 18446744073709551615, bump := 255 },
             owner_lamports := 10,
             vault_pda_lamports := 0 } : P01.DepositAccounts).vault.balance) :=
  ⟨c4_secure_deposits_reject_overflow.1
      { pool := { authority := 1, total_staked := 18446744073709551615,
                  reward_rate := 0, last_update_time := 0,
                  accumulated_reward_per_share := 0, bump := 255 },
        stake := { owner := 2, pool := 3, amount := 0, reward_debt := 0,
                   pending_rewards := 0, bump := 254 } } 5 (Or.inl (by decide)),
   c4_secure_deposits_reject_overflow.2
      { vault := { owner := 1, balance := 18446744073709551615, bump := 255 },
        owner_lamports := 10, vault_pda_lamports := 0 } 5 (by decide)⟩

/-- C5 amended: every embedded instruction either succeeds or aborts
with an error, and every error path leaves all account state unchanged
- proved here for P01 secure_withdraw and vulnerable_withdraw, all six
program 02 handlers under their account constraints,
initialize_splitter, and the program 05 handlers vulnerable_deposit,
vulnerable_withdraw, vulnerable_claim_rewards, secure_claim_rewards,
update_pool and secure_compound - except in exactly four handlers,
which can return an error with a partial mutation already applied
inside the instruction body (discarded only by the runtime's
transaction-level rollback), each exhibited at a concrete input: P05
vulnerable_compound (stake.amount multiplied before validation), P05
secure_deposit (pool.total_staked already increased when only the
stake sum overflows), P05 secure_withdraw (stake.amount already
decreased when the pool subtraction underflows), and P01 deposit (the
CPI lamport transfer already applied when the balance checked_add
panics). -/
theorem c5_error_path_characterization :
    (∀ (a : P01.SecureWithdrawAccounts) (signers : List Pubkey) (amount : Nat),
      (P01.secure_withdraw a signers amount).fst = Outcome.ok ∨
      (P01.secure_withdraw a signers amount).snd = a) ∧
    (∀ (a : P01.VulnerableWithdrawAccounts) (signers : List Pubkey) (amount : Nat),
      (P01.vulnerable_withdraw a signers amount).fst = Outcome.ok ∨
      (P01.vulnerable_withdraw a signers amount).snd = a) ∧
    (∀ (config : P02.Config) (new_admin caller : Pubkey) (signers : List Pubkey)
      (new_fee_bps : Nat),
      (P02.vulnerable_update_fee_ix config new_admin caller signers new_fee_bps).fst
        = Outcome.ok ∨
      (P02.vulnerable_update_fee_ix config new_admin caller signers new_fee_bps).snd
        = config) ∧
    (∀ (config : P02.Config) (caller : Pubkey) (signers : List Pubkey)
      (new_admin : Pubkey),
      (P02.vulnerable_transfer_admin_ix config caller signers new_admin).fst
        = Outcome.ok ∨
      (P02.vulnerable_transfer_admin_ix config caller signers new_admin).snd
        = config) ∧
    (∀ (config : P02.Config) (admin : Pubkey) (signers : List Pubkey)
      (new_fee_bps : Nat),
      (P02.secure_update_fee_ix config admin signers new_fee_bps).fst = Outcome.ok ∨
      (P02.secure_update_fee_ix config admin signers new_fee_bps).snd = config) ∧
    (∀ (config : P02.Config) (admin : Pubkey) (signers : List Pubkey) (pause : Bool),
      (P02.secure_pause_ix config admin signers pause).fst = Outcome.ok ∨
      (P02.secure_pause_ix config admin signers pause).snd = config) ∧
    (∀ (config : P02.Config) (admin : Pubkey) (signers : List Pubkey)
      (new_admin : Pubkey),
      (P02.secure_nominate_admin_ix config admin signers new_admin).fst = Outcome.ok ∨
      (P02.secure_nominate_admin_ix config admin signers new_admin).snd = config) ∧
    (∀ (config : P02.Config) (new_admin : Pubkey) (signers : List Pubkey),
      (P02.secure_accept_admin_ix config new_admin signers).fst = Outcome.ok ∨
      (P02.secure_accept_admin_ix config new_admin signers).snd = config) ∧
    (∀ (authority treasury recipient : Pubkey) (bps bump : Nat),
      (P04.initialize_splitter authority treasury recipient bps bump).fst
        = Outcome.ok ∨
      (P04.initialize_splitter authority treasury recipient bps bump).snd = none) ∧
    (∀ (st : P05.StakeState) (amount : Nat),
      (P05.vulnerable_deposit st amount).fst = Outcome.ok) ∧
    (∀ (st : P05.StakeState) (amount : Nat),
      (P05.vulnerable_withdraw st amount).fst = Outcome.ok) ∧
    (∀ (st : P05.StakeState) (now : Int),
      (P05.vulnerable_claim_rewards st now).fst = Outcome.ok) ∧
    (∀ (st : P05.StakeState) (now : Int),
      (P05.secure_claim_rewards st now).fst = Outcome.ok ∨
      (P05.secure_claim_rewards st now).snd = st) ∧
    (∀ (pool : P05.Pool) (now : Int),
      (P05.update_pool pool now).fst = Outcome.ok ∨
      (P05.update_pool pool now).snd = pool) ∧
    (∀ (st : P05.StakeState) (multiplier : Nat),
      (P05.secure_compound st multiplier).fst = Outcome.ok ∨
      (P05.secure_compound st multiplier).snd = st) ∧
    ((P05.vulnerable_compound
        { pool := { authority := 1, total_staked := 0, reward_rate := 0,
                    last_update_time := 0, accumulated_reward_per_share := 0,
                    bump := 255 },
          stake := { owner := 2, pool := 3, amount := 600000000, reward_debt := 0,
                     pending_rewards := 0, bump := 254 } } 2).fst
        = Outcome.err P05.PoolError.StakeTooLarge ∧
      (P05.vulnerable_compound
        { pool := { authority := 1, total_staked := 0, reward_rate := 0,
                    last_update_time := 0, accumulated_reward_per_share := 0,
                    bump := 255 },
          stake := { owner := 2, pool := 3, amount := 600000000, reward_debt := 0,
                     pending_rewards := 0, bump := 254 } } 2).snd
        ≠ { pool := { authority := 1, total_staked := 0, reward_rate := 0,
                      last_update_time := 0, accumulated_reward_per_share := 0,
                      bump := 255 },
            stake := { owner := 2, pool := 3, amount := 600000000, reward_debt := 0,
                       pending_rewards := 0, bump := 254 } }) ∧
    ((P05.secure_deposit
        { pool := { authority := 1, total_staked := 0, reward_rate := 0,
                    last_update_time := 0, accumulated_reward_per_share := 0,
                    bump := 255 },
          stake := { owner := 2, pool := 3, amount := 18446744073709551615,
                     reward_debt := 0, pending_rewards := 0, bump := 254 } } 1).fst
        = Outcome.err P05.PoolError.ArithmeticOverflow ∧
      (P05.secure_deposit
        { pool := { authority := 1, total_staked := 0, reward_rate := 0,
                    last_update_time := 0, accumulated_reward_per_share := 0,
                    bump := 255 },
          stake := { owner := 2, pool := 3, amount := 18446744073709551615,
                     reward_debt := 0, pending_rewards := 0, bump := 254 } } 1).snd
        ≠ { pool := { authority := 1, total_staked := 0, reward_rate := 0,
                      last_update_time := 0, accumulated_reward_per_share := 0,
                      bump := 255 },
            stake := { owner := 2, pool := 3, amount := 18446744073709551615,
                       reward_debt := 0, pending_rewards := 0, bump := 254 } }) ∧
    ((P05.secure_withdraw
        { pool := { authority := 1, total_staked := 5, reward_rate := 0,
                    last_update_time := 0, accumulated_reward_per_share := 0,
                    bump := 255 },
          stake := { owner := 2, pool := 3, amount := 10, reward_debt := 0,
                     pending_rewards := 0, bump := 254 } } 7).fst
        = Outcome.err P05.PoolError.ArithmeticUnderflow ∧
      (P05.secure_withdraw
        { pool := { authority := 1, total_staked := 5, reward_rate := 0,
                    last_update_time := 0, accumulated_reward_per_share := 0,
                    bump := 255 },
          stake := { owner := 2, pool := 3, amount := 10, reward_debt := 0,
                     pending_rewards := 0, bump := 254 } } 7).snd
        ≠ { pool := { authority := 1, total_staked := 5, reward_rate := 0,
                      last_update_time := 0, accumulated_reward_per_share := 0,
                      bump := 255 },
            stake := { owner := 2, pool := 3, amount := 10, reward_debt := 0,
                       pending_rewards := 0, bump := 254 } }) ∧
    ((P01.deposit
        { vault := { owner := 1, balance := 18446744073709551615, bump := 255 },
          owner_lamports := 10, vault_pda_lamports := 0 } 5).fst
        = Outcome.panicked ∧
      (P01.deposit
        { vault := { owner := 1, balance := 18446744073709551615, bump := 255 },
          owner_lamports := 10, vault_pda_lamports := 0 } 5).snd
        ≠ { vault := { owner := 1, balance := 18446744073709551615, bump := 255 },
            owner_lamports := 10, vault_pda_lamports := 0 }) := by
  refine ⟨?_, ?_, ?_, ?_, ?_, ?_, ?_, ?_, ?_, ?_, ?_, ?_, ?_, ?_, ?_, ?_, ?_, ?_, ?_⟩
  · intro a signers amount
    by_cases h1 : a.vault.owner = a.owner
    · by_cases h2 : a.withdrawer ∈ signers
      · by_cases h3 : a.vault.balance < amount
        · right; simp [P01.secure_withdraw, h1, h2, h3]
        · left
          simp [P01.secure_withdraw, h1, h2, h3,
            u64_checked_sub_eq_some (Nat.le_of_not_lt h3)]
      · right; simp [P01.secure_withdraw, h1, h2]
    · right; simp [P01.secure_withdraw, h1]
  · intro a signers amount
    by_cases h1 : a.withdrawer ∈ signers
    · by_cases h2 : a.vault.owner = a.withdrawer
      · by_cases h3 : a.vault.balance < amount
        · right; simp [P01.vulnerable_withdraw, h1, h2, h3]
        · left; simp [P01.vulnerable_withdraw, h1, h2, h3]
      · right; simp [P01.vulnerable_withdraw, h1, h2]
    · right; simp [P01.vulnerable_withdraw, h1]
  · intro config new_admin caller signers new_fee_bps
    by_cases h1 : caller ∈ signers
    · by_cases h2 : config.admin = new_admin
      · left; simp [P02.vulnerable_update_fee_ix, P02.vulnerable_update_fee, h1, h2]
      · right; simp [P02.vulnerable_update_fee_ix, P02.vulnerable_update_fee, h1, h2]
    · right; simp [P02.vulnerable_update_fee_ix, h1]
  · intro config caller signers new_admin
    by_cases h1 : caller ∈ signers
    · left; simp [P02.vulnerable_transfer_admin_ix, P02.vulnerable_transfer_admin, h1]
    · right; simp [P02.vulnerable_transfer_admin_ix, h1]
  · intro config admin signers new_fee_bps
    by_cases h1 : config.admin = admin
    · by_cases h2 : admin ∈ signers
      · by_cases h3 : new_fee_bps ≤ 1000
        · left; simp [P02.secure_update_fee_ix, P02.secure_update_fee, h1, h2, h3]
        · right; simp [P02.secure_update_fee_ix, P02.secure_update_fee, h1, h2, h3]
      · right; simp [P02.secure_update_fee_ix, h1, h2]
    · right; simp [P02.secure_update_fee_ix, h1]
  · intro config admin signers pause
    by_cases h1 : config.admin = admin
    · by_cases h2 : admin ∈ signers
      · left; simp [P02.secure_pause_ix, P02.secure_pause, h1, h2]
      · right; simp [P02.secure_pause_ix, h1, h2]
    · right; simp [P02.secure_pause_ix, h1]
  · intro config admin signers new_admin
    by_cases h1 : config.admin = admin
    · by_cases h2 : admin ∈ signers
      · left; simp [P02.secure_nominate_admin_ix, P02.secure_nominate_admin, h1, h2]
      · right; simp [P02.secure_nominate_admin_ix, h1, h2]
    · right; simp [P02.secure_nominate_admin_ix, h1]
  · intro config new_admin signers
    by_cases h1 : new_admin ∈ signers
    · cases hp : config.pending_admin with
      | none =>
        right; simp [P02.secure_accept_admin_ix, P02.secure_accept_admin, h1, hp]
      | some p =>
        by_cases h2 : p = new_admin
        · left; simp [P02.secure_accept_admin_ix, P02.secure_accept_admin, h1, hp, h2]
        · right; simp [P02.secure_accept_admin_ix, P02.secure_accept_admin, h1, hp, h2]
    · right; simp [P02.secure_accept_admin_ix, h1]
  · intro authority treasury recipient bps bump
    by_cases h1 : bps ≤ 10000
    · left; simp [P04.initialize_splitter, h1]
    · right; simp [P04.initialize_splitter, h1]
  · intro st amount; rfl
  · intro st amount; rfl
  · intro st now; rfl
  · intro st now
    cases h1 : i64_checked_sub now st.pool.last_update_time with
    | none => right; simp [P05.secure_claim_rewards, h1]
    | some time_elapsed =>
      cases h2 : u128_checked_mul st.pool.reward_rate (i64_as_u128 time_elapsed) with
      | none => right; simp [P05.secure_claim_rewards, h1, h2]
      | some p1 =>
        cases h3 : u128_checked_mul p1 st.stake.amount with
        | none => right; simp [P05.secure_claim_rewards, h1, h2, h3]
        | some p2 =>
          cases h4 : u128_checked_div p2 (max st.pool.total_staked 1) with
          | none => right; simp [P05.secure_claim_rewards, h1, h2, h3, h4]
          | some pending =>
            by_cases h5 : pending ≤ U64_MOD - 1
            · cases h6 : u64_checked_add st.stake.pending_rewards (pending % U64_MOD) with
              | none => right; simp [P05.secure_claim_rewards, h1, h2, h3, h4, h5, h6]
              | some pr => left; simp [P05.secure_claim_rewards, h1, h2, h3, h4, h5, h6]
            · right; simp [P05.secure_claim_rewards, h1, h2, h3, h4, h5]
  · intro pool now
    by_cases h0 : pool.total_staked = 0
    · left; simp [P05.update_pool, h0]
    · cases h1 : i64_checked_sub now pool.last_update_time with
      | none => right; simp [P05.update_pool, h0, h1]
      | some te =>
        cases h2 : u128_checked_mul pool.reward_rate (i64_as_u128 te) with
        | none => right; simp [P05.update_pool, h0, h1, h2]
        | some p1 =>
          cases h3 : u128_checked_mul p1 1000000000000 with
          | none => right; simp [P05.update_pool, h0, h1, h2, h3]
          | some p2 =>
            cases h4 : u128_checked_div p2 pool.total_staked with
            | none => right; simp [P05.update_pool, h0, h1, h2, h3, h4]
            | some reward =>
              cases h5 : u64_checked_add pool.accumulated_reward_per_share
                  (reward % U64_MOD) with
              | none => right; simp [P05.update_pool, h0, h1, h2, h3, h4, h5]
              | some acc => left; simp [P05.update_pool, h0, h1, h2, h3, h4, h5]
  · intro st multiplier
    by_cases h1 : 0 < multiplier ∧ multiplier ≤ 10
    · cases hm : u64_checked_mul st.stake.amount multiplier with
      | none => right; simp [P05.secure_compound, h1, hm]
      | some n =>
        by_cases h2 : n ≤ 1000000000
        · left; simp [P05.secure_compound, h1, hm, h2]
        · right; simp [P05.secure_compound, h1, hm, h2]
    · right; simp [P05.secure_compound, h1]
  · exact ⟨by decide, by decide⟩
  · exact ⟨by decide, by decide⟩
  · exact ⟨by decide, by decide⟩
  · exact ⟨by decide, by decide⟩

/-- C6: on inputs where both sums fit in u64, vulnerable_deposit and
secure_deposit of program 05 return identical results; on inputs where
either sum exceeds u64::MAX, secure_deposit rejects with
ArithmeticOverflow while vulnerable_deposit succeeds and stores both
sums reduced modulo 2^64. -/
theorem c6_deposit_refinement :
    ∀ (st : P05.StakeState) (amount : Nat),
      (st.pool.total_staked + amount < U64_MOD ∧ st.stake.amount + amount < U64_MOD →
        P05.vulnerable_deposit st amount = P05.secure_deposit st amount) ∧
      (U64_MOD ≤ st.pool.total_staked + amount ∨ U64_MOD ≤ st.stake.amount + amount →
        (P05.secure_deposit st amount).fst
          = Outcome.err P05.PoolError.ArithmeticOverflow ∧
        P05.vulnerable_deposit st amount
          = (Outcome.ok,
            { st with
              pool := { st.pool with
                total_staked := (st.pool.total_staked + amount) % U64_MOD },
              stake := { st.stake with
                amount := (st.stake.amount + amount) % U64_MOD } })) := by
  intro st amount
  constructor
  · rintro ⟨h1, h2⟩
    simp [P05.vulnerable_deposit, P05.secure_deposit,
      u64_checked_add_eq_some h1, u64_checked_add_eq_some h2,
      u64_wrap_add_eq h1, u64_wrap_add_eq h2]
  · intro h
    constructor
    · by_cases hp : st.pool.total_staked + amount < U64_MOD
      · have hs : U64_MOD ≤ st.stake.amount + amount := by
          rcases h with h | h
          · omega
          · exact h
        simp [P05.secure_deposit, u64_checked_add_eq_some hp,
          u64_checked_add_eq_none hs]
      · have hp2 : U64_MOD ≤ st.pool.total_staked + amount := Nat.le_of_not_lt hp
        simp [P05.secure_deposit, u64_checked_add_eq_none hp2]
    · simp [P05.vulnerable_deposit, u64_wrap_add]

/-- C6 witness: on a concrete non-overflowing input the two handlers
produce the same result. -/
theorem c6_witness :
    P05.vulnerable_deposit
      { pool := { authority := 1, total_staked := 10, reward_rate := 0,
                  last_update_time := 0, accumulated_reward_per_share := 0,
                  bump := 255 },
        stake := { owner := 2, pool := 3, amount := 4, reward_debt := 0,
                   pending_rewards := 0, bump := 254 } } 5
      = P05.secure_deposit
        { pool := { authority := 1, total_staked := 10, reward_rate := 0,
                    last_update_time := 0, accumulated_reward_per_share := 0,
                    bump := 255 },
          stake := { owner := 2, pool := 3, amount := 4, reward_debt := 0,
                     pending_rewards := 0, bump := 254 } } 5 :=
  (c6_deposit_refinement
    { pool := { authority := 1, total_staked := 10, reward_rate := 0,
                last_update_time := 0, accumulated_reward_per_share := 0,
                bump := 255 },
      stake := { owner := 2, pool := 3, amount := 4, reward_debt := 0,
                 pending_rewards := 0, bump := 254 } } 5).1 (by decide)

/-- C8: initialize_splitter only accepts shares up to 10000 bps, and for
every u64 amount and every share <= 10000 bps the split computes
recipient = floor(amount * bps / 10000) and treasury = amount -
recipient with no unwrap panic (no overflow), the two parts summing to
exactly the input amount. -/
theorem c8_split_conserves_amount :
    (∀ (authority treasury recipient : Pubkey) (bps bump : Nat),
      (P04.initialize_splitter authority treasury recipient bps bump).fst
        = Outcome.ok → bps ≤ 10000) ∧
    (∀ (amount bps : Nat), amount < U64_MOD → bps ≤ 10000 →
      P04.split_payment_amounts amount bps
        = some (amount * bps / 10000, amount - amount * bps / 10000) ∧
      amount * bps / 10000 + (amount - amount * bps / 10000) = amount) := by
  constructor
  · intro authority treasury recipient bps bump hok
    by_cases h : bps ≤ 10000
    · exact h
    · simp [P04.initialize_splitter, h] at hok
  · intro amount bps hamt hbps
    have hmul : amount * bps < U128_MOD := by
      calc amount * bps ≤ amount * 10000 := Nat.mul_le_mul_left amount hbps
        _ < U64_MOD * 10000 := by
            exact Nat.mul_lt_mul_of_lt_of_le hamt (le_refl 10000) (by norm_num)
        _ < U128_MOD := by norm_num [U64_MOD, U128_MOD]
    have hq_le : amount * bps / 10000 ≤ amount := by
      have h1 : amount * bps / 10000 ≤ amount * 10000 / 10000 :=
        Nat.div_le_div_right (Nat.mul_le_mul_left amount hbps)
      have h2 : amount * 10000 / 10000 = amount :=
        Nat.mul_div_cancel amount (by norm_num)
      omega
    have hqlt : amount * bps / 10000 < U64_MOD := lt_of_le_of_lt hq_le hamt
    constructor
    · simp [P04.split_payment_amounts, u128_checked_mul, u128_checked_div,
        hmul, Nat.mod_eq_of_lt hqlt, u64_checked_sub_eq_some hq_le]
    · omega

/-- C8 witness: a concrete split. -/
theorem c8_witness :
    ((P04.initialize_splitter 1 2 3 2500 255).fst = Outcome.ok → (2500 : Nat) ≤ 10000) ∧
    (P04.split_payment_amounts 1001 2500 = some (1001 * 2500 / 10000, 1001 - 1001 * 2500 / 10000) ∧
      1001 * 2500 / 10000 + (1001 - 1001 * 2500 / 10000) = 1001) :=
  ⟨c8_split_conserves_amount.1 1 2 3 2500 255,
   c8_split_conserves_amount.2 1001 2500 (by decide) (by decide)⟩

/-- C9: secure_accept_admin (run with its new_admin-signer constraint)
fails with NoPendingAdmin when pending_admin is None, fails with
NotPendingAdmin when pending_admin holds a key different from the
signing new_admin (leaving the config unchanged in both error cases),
and otherwise sets admin to the signer key, clears pending_admin, and
leaves every other field unchanged. -/
theorem c9_secure_accept_admin_cases :
    ∀ (config : P02.Config) (new_admin : Pubkey) (signers : List Pubkey),
      new_admin ∈ signers →
      (config.pending_admin = none →
        P02.secure_accept_admin_ix config new_admin signers
          = (Outcome.err P02.ConfigError.NoPendingAdmin, config)) ∧
      (∀ p, config.pending_admin = some p → p ≠ new_admin →
        P02.secure_accept_admin_ix config new_admin signers
          = (Outcome.err P02.ConfigError.NotPendingAdmin, config)) ∧
      (config.pending_admin = some new_admin →
        P02.secure_accept_admin_ix config new_admin signers
          = (Outcome.ok,
            { config with admin := new_admin, pending_admin := none })) := by
  intro config new_admin signers hs
  refine ⟨?_, ?_, ?_⟩
  · intro hnone
    simp [P02.secure_accept_admin_ix, hs, P02.secure_accept_admin, hnone]
  · intro p hp hne
    simp [P02.secure_accept_admin_ix, hs, P02.secure_accept_admin, hp, hne]
  · intro hsome
    simp [P02.secure_accept_admin_ix, hs, P02.secure_accept_admin, hsome]

/-- C9 witness: all three cases at concrete configs. -/
theorem c9_witness :
    (P02.secure_accept_admin_ix
      { admin := 1, pending_admin := none, fee_bps := 100,
        max_deposit := 1000000000000, is_paused := false, bump := 255 } 7 [7]
      = (Outcome.err P02.ConfigError.NoPendingAdmin,
        { admin := 1, pending_admin := none, fee_bps := 100,
          max_deposit := 1000000000000, is_paused := false, bump := 255 })) ∧
    (P02.secure_accept_admin_ix
      { admin := 1, pending_admin := some 5, fee_bps := 100,
        max_deposit := 1000000000000, is_paused := false, bump := 255 } 7 [7]
      = (Outcome.err P02.ConfigError.NotPendingAdmin,
        { admin := 1, pending_admin := some 5, fee_bps := 100,
          max_deposit := 1000000000000, is_paused := false, bump := 255 })) ∧
    (P02.secure_accept_admin_ix
      { admin := 1, pending_admin := some 7, fee_bps := 100,
        max_deposit := 1000000000000, is_paused := false, bump := 255 } 7 [7]
      = (Outcome.ok,
        { admin := 7, pending_admin := none, fee_bps := 100,
          max_deposit := 1000000000000, is_paused := false, bump := 255 })) :=
  ⟨(c9_secure_accept_admin_cases
      { admin := 1, pending_admin := none, fee_bps := 100,
        max_deposit := 1000000000000, is_paused := false, bump := 255 } 7 [7]
      (by decide)).1 rfl,
   (c9_secure_accept_admin_cases
      { admin := 1, pending_admin := some 5, fee_bps := 100,
        max_deposit := 1000000000000, is_paused := false, bump := 255 } 7 [7]
      (by decide)).2.1 5 rfl (by decide),
   (c9_secure_accept_admin_cases
      { admin := 1, pending_admin := some 7, fee_bps := 100,
        max_deposit := 1000000000000, is_paused := false, bump := 255 } 7 [7]
      (by decide)).2.2 rfl⟩

/-- C10: the secure_update_fee handler returns FeeTooHigh exactly when
new_fee_bps > 1000, leaving the config unchanged in that case; when
new_fee_bps <= 1000 it succeeds and updates only fee_bps, with admin,
pending_admin, max_deposit, is_paused and bump untouched. -/
theorem c10_secure_update_fee_spec :
    ∀ (config : P02.Config) (new_fee_bps : Nat),
      ((P02.secure_update_fee config new_fee_bps).fst
          = Outcome.err P02.ConfigError.FeeTooHigh ↔ 1000 < new_fee_bps) ∧
      (1000 < new_fee_bps → (P02.secure_update_fee config new_fee_bps).snd = config) ∧
      (new_fee_bps ≤ 1000 →
        P02.secure_update_fee config new_fee_bps
          = (Outcome.ok, { config with fee_bps := new_fee_bps })) := by
  intro config new_fee_bps
  by_cases h : new_fee_bps ≤ 1000
  · refine ⟨?_, ?_, ?_⟩
    · constructor
      · intro hfe
        exfalso
        simp [P02.secure_update_fee, h] at hfe
      · intro hgt; omega
    · intro hgt; omega
    · intro _; simp [P02.secure_update_fee, h]
  · refine ⟨?_, ?_, ?_⟩
    · constructor
      · intro _; omega
      · intro _; simp [P02.secure_update_fee, h]
    · intro _; simp [P02.secure_update_fee, h]
    · intro hle; omega

/-- C10 witness: both branches at a concrete config. -/
theorem c10_witness :
    ((P02.secure_update_fee
        { admin := 1, pending_admin := none, fee_bps := 100,
          max_deposit := 1000000000000, is_paused := false, bump := 255 } 2000).snd
      = { admin := 1, pending_admin := none, fee_bps := 100,
          max_deposit := 1000000000000, is_paused := false, bump := 255 }) ∧
    (P02.secure_update_fee
        { admin := 1, pending_admin := none, fee_bps := 100,
          max_deposit := 1000000000000, is_paused := false, bump := 255 } 250
      = (Outcome.ok,
        { admin := 1, pending_admin := none, fee_bps := 250,
          max_deposit := 1000000000000, is_paused := false, bump := 255 })) :=
  ⟨(c10_secure_update_fee_spec
      { admin := 1, pending_admin := none, fee_bps := 100,
        max_deposit := 1000000000000, is_paused := false, bump := 255 } 2000).2.1
      (by decide),
   (c10_secure_update_fee_spec
      { admin := 1, pending_admin := none, fee_bps := 100,
        max_deposit := 1000000000000, is_paused := false, bump := 255 } 250).2.2
      (by decide)⟩

end SolanaPatterns
